import Mathlib

/-
Verification of the movie-recommendation service in `src/main.py`.

The program holds a fixed list of ten movies, vectorizes their combined
text with a third-party TF-IDF library, precomputes the pairwise cosine
similarity matrix, and serves two ranking operations behind a small web
handler.  The TF-IDF vectorizer and the floating-point cosine routine are
third-party library calls that the specification treats as a black box;
here they are abstracted as parameters: `sim` stands for the precomputed
`cosine_sim_matrix` (a score matrix over an arbitrary linearly ordered
score type) and `transform` stands for the composition
`cosine_similarity(vectorizer.transform([query]), tfidf_matrix).flatten()`,
a pure function from the query string to the per-item score row.  The
ranking and handler logic itself is translated statement by statement.
-/

namespace MovieRec

/-- A row of the `movies` table in `src/main.py` (also a `df.iloc` record). -/
structure Movie where
  id : Int
  title : String
  genres : String
  overview : String
deriving DecidableEq, Repr

/-- The fixed ten-movie dataset from `src/main.py` lines 15-26. -/
def movies : List Movie := [
  ⟨0, "Star Voyagers", "Sci-Fi Adventure", "A crew explores distant planets and faces strange phenomena."⟩,
  ⟨1, "Love in Autumn", "Romance Drama", "Two strangers meet during a rainy autumn and learn to heal."⟩,
  ⟨2, "Quantum Heist", "Action Thriller", "A team uses experimental tech to pull off a near-impossible robbery."⟩,
  ⟨3, "Silent Forest", "Horror Mystery", "Visitors get lost in a forest where reality bends and secrets whisper."⟩,
  ⟨4, "Chef's Journey", "Comedy Drama", "A young chef travels the country to rediscover family recipes and meaning."⟩,
  ⟨5, "Galactic Wars", "Sci-Fi Action", "Interstellar factions clash in a battle for a valuable energy source."⟩,
  ⟨6, "Midnight Detective", "Crime Noir", "A private detective uncovers corruption while searching for a missing heir."⟩,
  ⟨7, "Ocean Echoes", "Documentary", "An exploration of ocean life and the communities that depend on it."⟩,
  ⟨8, "The Last Marathon", "Sports Drama", "An aging runner prepares for one final race that might redeem his past."⟩,
  ⟨9, "Parallel Lives", "Sci-Fi Romance", "Two people living in parallel realities try to find a bridge between them."⟩]

/-- The derived text column built at line 31: title, genres and overview
joined with spaces.  It is the input of the black-box vectorizer. -/
def derivedText (m : Movie) : String :=
  m.title ++ " " ++ m.genres ++ " " ++ m.overview

/-- Positional row access `df.iloc[i]`.  Every index the program produces is
in range, so the default value is never reached. -/
def iloc (i : Nat) : Movie := movies.getD i ⟨0, "", "", ""⟩

/-- The comparison used by `sorted(sim_scores, key=lambda x: x[1], reverse=True)`
at line 46: pair `a` may precede pair `b` when `a`'s score is at least `b`'s.
`sorted` with `reverse=True` is a stable descending sort, which is exactly
insertion sort with this relation. -/
def descRel {α : Type} [LinearOrder α] (a b : Nat × α) : Prop := b.2 ≤ a.2

instance {α : Type} [LinearOrder α] : DecidableRel (descRel : Nat × α → Nat × α → Prop) :=
  fun a b => inferInstanceAs (Decidable (b.2 ≤ a.2))

instance {α : Type} [LinearOrder α] : IsTotal (Nat × α) descRel :=
  ⟨fun a b => le_total b.2 a.2⟩

instance {α : Type} [LinearOrder α] : IsTrans (Nat × α) descRel :=
  ⟨fun _ _ _ h1 h2 => le_trans h2 h1⟩

/-- The key comparison of `numpy.argsort` on the score row `f`: index `i`
may precede index `j` when `f i ≤ f j`. -/
def keyLe {α : Type} [LinearOrder α] (f : Nat → α) (i j : Nat) : Prop := f i ≤ f j

instance {α : Type} [LinearOrder α] (f : Nat → α) : DecidableRel (keyLe f) :=
  fun i j => inferInstanceAs (Decidable (f i ≤ f j))

instance {α : Type} [LinearOrder α] (f : Nat → α) : IsTotal Nat (keyLe f) :=
  ⟨fun i j => le_total (f i) (f j)⟩

instance {α : Type} [LinearOrder α] (f : Nat → α) : IsTrans Nat (keyLe f) :=
  ⟨fun _ _ _ => le_trans⟩

/-- Line 45: `sim_scores = list(enumerate(cosine_sim_matrix[idx]))`. -/
def simRow {α : Type} (sim : Nat → Nat → α) (idx : Nat) : List (Nat × α) :=
  (List.range movies.length).map (fun i => (i, sim idx i))

/-- Line 46: the stable descending sort of the enumerated similarity row. -/
def sortedSimScores {α : Type} [LinearOrder α] (sim : Nat → Nat → α) (idx : Nat) :
    List (Nat × α) :=
  List.insertionSort descRel (simRow sim idx)

/-- Line 47: `top_indices = [i for i, score in sim_scores[1: top_n + 1]]`,
the slice that skips the first (assumed self) entry. -/
def rbmIndices {α : Type} [LinearOrder α] (sim : Nat → Nat → α) (idx top_n : Nat) :
    List Nat :=
  (((sortedSimScores sim idx).drop 1).take top_n).map Prod.fst

/-- `recommend_by_movie` (lines 41-48).  Returns `[]` when the identifier is
not in the `id` column, otherwise resolves the row position of the
identifier, ranks the similarity row and returns the records at the
selected positions. -/
def recommend_by_movie {α : Type} [LinearOrder α] (sim : Nat → Nat → α)
    (movie_id : Int) (top_n : Nat) : List Movie :=
  if movies.any (fun m => m.id == movie_id) then
    (rbmIndices sim (movies.findIdx (fun m => m.id == movie_id)) top_n).map iloc
  else []

/-- `numpy.argsort` of the score row `f` over `n` items, ascending.  For
arrays shorter than 16 entries (here 10) numpy's default quicksort runs its
insertion-sort base case, which is a stable ascending sort; insertion sort
with the key comparison models it exactly. -/
def npArgsort {α : Type} [LinearOrder α] (f : Nat → α) (n : Nat) : List Nat :=
  List.insertionSort (keyLe f) (List.range n)

/-- Line 54: `top_indices = sims.argsort()[::-1][:top_n]`. -/
def rbtIndices {α : Type} [LinearOrder α] (f : Nat → α) (top_n : Nat) : List Nat :=
  ((npArgsort f movies.length).reverse).take top_n

/-- `recommend_by_text` (lines 51-55).  `transform` abstracts the black-box
query vectorization plus cosine row (lines 52-53): for a query string it
yields the similarity score of each corpus item. -/
def recommend_by_text {α : Type} [LinearOrder α] (transform : String → Nat → α)
    (query : String) (top_n : Nat) : List Movie :=
  (rbtIndices (transform query) top_n).map iloc

/-- Python's `str.strip()` on a character list: drop leading and trailing
whitespace. -/
def pyStripChars (l : List Char) : List Char :=
  ((l.dropWhile Char.isWhitespace).reverse.dropWhile Char.isWhitespace).reverse

/-- Python's `str.strip()` (line 127). -/
def pyStrip (s : String) : String := String.mk (pyStripChars s.data)

/-- Decimal digit run to a number; `none` when empty or any non-digit
appears. -/
def natOfDigits (l : List Char) : Option Nat :=
  l.foldl
    (fun acc c =>
      match acc with
      | some n => if c.isDigit then some (n * 10 + (c.toNat - 48)) else none
      | none => none)
    (if l.isEmpty then none else some 0)

/-- Python's `int(...)` on a form string: surrounding whitespace is
tolerated, one optional sign is tolerated, anything else fails with
`ValueError`, modelled as `none`.  (Python additionally accepts underscore
digit grouping, which no claim touches.) -/
def pyInt (s : String) : Option Int :=
  match pyStripChars s.data with
  | '-' :: rest => (natOfDigits rest).map (fun n => -(Int.ofNat n))
  | '+' :: rest => (natOfDigits rest).map Int.ofNat
  | l => (natOfDigits l).map Int.ofNat

/-- Observable outcome of the `POST /recommend` handler: a redirect to the
index route, a rendered results page (results list, selected movie id,
echoed query), or an uncaught exception propagating out of the view
function (an HTTP 500 / debugger traceback). -/
inductive HttpResult where
  | redirectIndex : HttpResult
  | page : List Movie → Option Int → String → HttpResult
  | serverError : HttpResult
deriving DecidableEq, Repr

/-- The `recommend` view function (lines 124-143), translated statement by
statement.  The `try` block (lines 130-137) can only raise at
`int(movie_id)`: a parse failure there is caught and leaves `results = []`,
and — faithfully to Python control flow — skips the `if query:` branch.
After the redirect check, line 143 evaluates `int(movie_id)` again OUTSIDE
the `try`, so an unparseable non-empty `movie_id` raises an uncaught
`ValueError` there. -/
def recommend_route {α : Type} [LinearOrder α] (sim : Nat → Nat → α)
    (transform : String → Nat → α) (movie_id query_raw : String) : HttpResult :=
  let query := pyStrip query_raw
  let results : List Movie :=
    if movie_id ≠ "" then
      match pyInt movie_id with
      | none => []
      | some mid =>
        if query ≠ "" then recommend_by_text transform query 5
        else recommend_by_movie sim mid 5
    else
      if query ≠ "" then recommend_by_text transform query 5 else []
  if movie_id = "" ∧ query = "" then HttpResult.redirectIndex
  else if movie_id ≠ "" then
    match pyInt movie_id with
    | none => HttpResult.serverError
    | some mid => HttpResult.page results (some mid) query
  else HttpResult.page results none query

/-- The claim-level rendering predicate: the handler outcome is a rendered
page whose results list is exactly `res`. -/
def rendersResults : HttpResult → List Movie → Prop
  | HttpResult.page res' _ _, res => res' = res
  | HttpResult.redirectIndex, _ => False
  | HttpResult.serverError, _ => False

instance (r : HttpResult) (res : List Movie) : Decidable (rendersResults r res) :=
  match r with
  | HttpResult.page res' _ _ => inferInstanceAs (Decidable (res' = res))
  | HttpResult.redirectIndex => inferInstanceAs (Decidable False)
  | HttpResult.serverError => inferInstanceAs (Decidable False)

/-- The row position the code resolves for a movie record:
`df.index[df["id"] == movie_id][0]` (line 44). -/
def movieIdx (x : Movie) : Nat := movies.findIdx (fun m => m.id == x.id)

/-- A constant score matrix used to instantiate witnesses. -/
def constSim : Nat → Nat → Int := fun _ _ => 0

/-- A constant transform used to instantiate witnesses: every item scores 0
against every query, the situation of a query sharing no vocabulary with
the corpus. -/
def constTransform : String → Nat → Int := fun _ _ => 0

/-- A score matrix whose diagonal strictly dominates each row, as cosine
self-similarity does on the program's distinct item texts. -/
def diagSim : Nat → Nat → Int := fun i j => if i = j then 1 else 0

/-- The order actually realised by `argsort()[::-1]` on the score row `f`:
`i` comes before `j` when `i` scores strictly higher, or when the scores tie
and `i` is the larger original index (ascending stable argsort, reversed).
Stated here in its ascending form: the relation that holds along the
ascending argsort output. -/
def rankRel {α : Type} [LinearOrder α] (f : Nat → α) (i j : Nat) : Prop :=
  f i < f j ∨ (f i = f j ∧ i < j)

/-- Cosine similarity of two vectors, the quantity
`sklearn.metrics.pairwise.cosine_similarity` computes entrywise (modelled
in exact real arithmetic; the library's float rounding is out of scope). -/
noncomputable def cosineSim {F : Type} [NormedAddCommGroup F]
    [InnerProductSpace ℝ F] (u v : F) : ℝ :=
  (inner u v : ℝ) / (‖u‖ * ‖v‖)

/-- Line 38: `cosine_sim_matrix = cosine_similarity(tfidf_matrix, tfidf_matrix)`.
The TF-IDF rows are abstract nonzero vectors `vecs` in a `d`-dimensional
feature space (`d` is the fitted vocabulary size); the matrix is square of
side `movies.length` by construction. -/
noncomputable def cosine_sim_matrix (d : Nat)
    (vecs : Fin movies.length → EuclideanSpace ℝ (Fin d)) :
    Matrix (Fin movies.length) (Fin movies.length) ℝ :=
  Matrix.of fun i j => cosineSim (vecs i) (vecs j)

/-- A concrete nonzero feature vector used to instantiate witnesses. -/
noncomputable def tfidfVec : EuclideanSpace ℝ (Fin 1) :=
  EuclideanSpace.single 0 1

lemma simRow_map_fst {α : Type} (sim : Nat → Nat → α) (idx : Nat) :
    (simRow sim idx).map Prod.fst = List.range movies.length := by
  rw [simRow, List.map_map]
  exact List.map_id _

lemma length_sortedSimScores {α : Type} [LinearOrder α] (sim : Nat → Nat → α) (idx : Nat) :
    (sortedSimScores sim idx).length = movies.length := by
  rw [sortedSimScores, List.length_insertionSort, simRow, List.length_map,
    List.length_range]

lemma mem_simRow {α : Type} (sim : Nat → Nat → α) (idx : Nat) (p : Nat × α)
    (hp : p ∈ simRow sim idx) : p.1 < movies.length ∧ p.2 = sim idx p.1 := by
  simp only [simRow, List.mem_map, List.mem_range] at hp
  obtain ⟨i, hi, hip⟩ := hp
  subst hip
  exact ⟨hi, rfl⟩

lemma nodup_fst_sortedSimScores {α : Type} [LinearOrder α] (sim : Nat → Nat → α) (idx : Nat) :
    ((sortedSimScores sim idx).map Prod.fst).Nodup := by
  have hperm : (sortedSimScores sim idx).Perm (simRow sim idx) :=
    List.perm_insertionSort _ _
  have h3 : ((simRow sim idx).map Prod.fst).Nodup := by
    rw [simRow_map_fst]
    exact List.nodup_range _
  exact h3.perm (hperm.map Prod.fst).symm

/-- C5 — `recommend_by_movie` with an identifier not present in the corpus
returns the empty list rather than an error. -/
theorem rank_by_item_unknown_id_empty {α : Type} [LinearOrder α]
    (sim : Nat → Nat → α) (mid : Int) (top_n : Nat)
    (h : ∀ m ∈ movies, m.id ≠ mid) :
    recommend_by_movie sim mid top_n = [] := by
  have hany : movies.any (fun m => m.id == mid) = false := by
    simp only [List.any_eq_false, beq_iff_eq]
    exact h
  simp [recommend_by_movie, hany]

/-- Witness for C5 at the spec's own scenario, identifier 999. -/
theorem rank_by_item_unknown_id_empty_witness :
    (∀ m ∈ movies, m.id ≠ 999) ∧ recommend_by_movie constSim 999 5 = [] :=
  ⟨by decide, rank_by_item_unknown_id_empty constSim 999 5 (by decide)⟩

/-- C7 — a POST with empty `movie_id` and whitespace-only (or empty) `query`
redirects to the index route instead of rendering a page. -/
theorem both_fields_empty_redirects {α : Type} [LinearOrder α]
    (sim : Nat → Nat → α) (transform : String → Nat → α)
    (movie_id query_raw : String)
    (h1 : movie_id = "") (h2 : pyStrip query_raw = "") :
    recommend_route sim transform movie_id query_raw = HttpResult.redirectIndex := by
  subst h1
  simp [recommend_route, h2]

/-- Witness for C7 with a whitespace-only query field. -/
theorem both_fields_empty_redirects_witness :
    ("" : String) = "" ∧ pyStrip "   " = "" ∧
      recommend_route constSim constTransform "" "   " = HttpResult.redirectIndex :=
  ⟨rfl, by decide, both_fields_empty_redirects constSim constTransform "" "   " rfl (by decide)⟩

/-- C8 — `recommend_by_text` is deterministic: the embedding is a pure
function of the fitted index (`transform`) and the query text, so equal
query texts against the unchanged index yield identical ordered output. -/
theorem rank_by_text_deterministic {α : Type} [LinearOrder α]
    (transform : String → Nat → α) (q1 q2 : String) (top_n : Nat)
    (h : q1 = q2) :
    recommend_by_text transform q1 top_n = recommend_by_text transform q2 top_n := by
  rw [h]

/-- Witness for C8 at the spec's example query. -/
theorem rank_by_text_deterministic_witness :
    ("space adventure with battles and heroes" : String) =
        "space adventure with battles and heroes" ∧
      recommend_by_text constTransform "space adventure with battles and heroes" 3 =
        recommend_by_text constTransform "space adventure with battles and heroes" 3 :=
  ⟨rfl, rank_by_text_deterministic constTransform _ _ 3 rfl⟩

/-- C10 — for every query (in particular one whose similarity to every item
is zero: the score row `transform q` is arbitrary here, so the all-zero row
is an instance) `recommend_by_text` returns exactly `min top_n` corpus-size
records: there is no relevance threshold. -/
theorem rank_by_text_length {α : Type} [LinearOrder α]
    (transform : String → Nat → α) (q : String) (top_n : Nat) :
    (recommend_by_text transform q top_n).length = min top_n movies.length := by
  rw [recommend_by_text, List.length_map, rbtIndices, List.length_take,
    List.length_reverse, npArgsort, List.length_insertionSort, List.length_range]

/-- C3 — divergence theorem: a POST whose `movie_id` is a non-empty
non-integer string does not produce an empty-results page; the second
`int(movie_id)` at line 143, outside the `try`, raises an uncaught
`ValueError` and the handler propagates it (HTTP 500). -/
theorem malformed_id_propagates :
    recommend_route constSim constTransform "abc" "" = HttpResult.serverError := by
  decide

lemma pyInt_empty : pyInt "" = none := rfl

lemma pyInt_ne_empty {s : String} {mid : Int} (h : pyInt s = some mid) : s ≠ "" := by
  intro h0
  rw [h0, pyInt_empty] at h
  exact Option.noConfusion h

/-- C4 — counterexample to the stated resolution policy: with
`movie_id = "abc"` (non-empty, unparseable) and the non-empty query
`"space adventure"`, the handler does not render the text-ranking results
(nor any page): the `int("abc")` inside the `try` aborts the block before
the query branch, and the `int("abc")` at line 143 then raises uncaught.
The second conjunct shows the identifier branch of the policy fails on the
same unparseable identifier when the query is empty. -/
theorem query_precedence_counterexample :
    (recommend_route constSim constTransform "abc" "space adventure" =
        HttpResult.serverError ∧
      ¬ rendersResults (recommend_route constSim constTransform "abc" "space adventure")
          (recommend_by_text constTransform "space adventure" 5)) ∧
    recommend_route constSim constTransform "abc" "" = HttpResult.serverError := by
  refine ⟨⟨by decide, ?_⟩, by decide⟩
  decide

/-- C4 (amended) — resolution policy of `POST /recommend`: when the
stripped query is non-empty and `movie_id` is either absent or parses as an
integer, the rendered results are those of text ranking (query takes
precedence); when the stripped query is empty and `movie_id` parses as an
integer, the rendered results are those of identifier ranking.  (A
non-empty unparseable `movie_id` instead escapes as an uncaught exception;
see the C3 theorems.) -/
theorem resolution_policy {α : Type} [LinearOrder α] (sim : Nat → Nat → α)
    (transform : String → Nat → α) (movie_id query_raw : String) :
    ((movie_id = "" ∨ (pyInt movie_id).isSome) → pyStrip query_raw ≠ "" →
      rendersResults (recommend_route sim transform movie_id query_raw)
        (recommend_by_text transform (pyStrip query_raw) 5)) ∧
    (∀ mid : Int, pyStrip query_raw = "" → pyInt movie_id = some mid →
      rendersResults (recommend_route sim transform movie_id query_raw)
        (recommend_by_movie sim mid 5)) := by
  constructor
  · rintro (h1 | h1) h2
    · subst h1
      simp [recommend_route, h2, rendersResults]
    · obtain ⟨mid, hmid⟩ := Option.isSome_iff_exists.mp h1
      have hne : movie_id ≠ "" := pyInt_ne_empty hmid
      simp [recommend_route, hne, hmid, h2, rendersResults]
  · intro mid h2 hmid
    have hne : movie_id ≠ "" := pyInt_ne_empty hmid
    simp [recommend_route, hne, hmid, h2, rendersResults]

/-- Witness for the amended C4, exercising both branches of the policy. -/
theorem resolution_policy_witness :
    ((("" : String) = "" ∨ (pyInt "").isSome) ∧ pyStrip " hi " ≠ "" ∧
      rendersResults (recommend_route constSim constTransform "" " hi ")
        (recommend_by_text constTransform (pyStrip " hi ") 5)) ∧
    (pyStrip "" = "" ∧ pyInt "3" = some 3 ∧
      rendersResults (recommend_route constSim constTransform "3" "")
        (recommend_by_movie constSim 3 5)) :=
  ⟨⟨Or.inl rfl, by decide,
      (resolution_policy constSim constTransform "" " hi ").1 (Or.inl rfl) (by decide)⟩,
    ⟨rfl, by decide,
      (resolution_policy constSim constTransform "3" "").2 3 rfl (by decide)⟩⟩

lemma orderedInsert_rankRel {α : Type} [LinearOrder α] (f : Nat → α) (a : Nat)
    (s : List Nat) (hs : s.Pairwise (rankRel f)) (ha : ∀ b ∈ s, a < b) :
    (List.orderedInsert (keyLe f) a s).Pairwise (rankRel f) := by
  induction s with
  | nil => simp [List.orderedInsert]
  | cons b t ih =>
    by_cases h : keyLe f a b
    · rw [List.orderedInsert, if_pos h]
      refine List.pairwise_cons.mpr ⟨?_, hs⟩
      intro c hc
      rcases List.mem_cons.mp hc with rfl | hct
      · rcases lt_or_eq_of_le h with hlt | heq
        · exact Or.inl hlt
        · exact Or.inr ⟨heq, ha c (List.mem_cons_self _ _)⟩
      · rcases (List.pairwise_cons.mp hs).1 c hct with hlt | ⟨heq, _⟩
        · exact Or.inl (lt_of_le_of_lt h hlt)
        · rcases lt_or_eq_of_le (le_trans h heq.le) with h2 | h2
          · exact Or.inl h2
          · exact Or.inr ⟨h2, ha c (List.mem_cons_of_mem _ hct)⟩
    · rw [List.orderedInsert, if_neg h]
      have hba : f b < f a := not_le.mp h
      refine List.pairwise_cons.mpr ⟨?_, ?_⟩
      · intro c hc
        rcases (List.mem_orderedInsert _).mp hc with rfl | hct
        · exact Or.inl hba
        · exact (List.pairwise_cons.mp hs).1 c hct
      · exact ih (List.pairwise_cons.mp hs).2
          (fun c hc => ha c (List.mem_cons_of_mem _ hc))

lemma insertionSort_rankRel {α : Type} [LinearOrder α] (f : Nat → α)
    (l : List Nat) (hl : l.Pairwise (· < ·)) :
    (List.insertionSort (keyLe f) l).Pairwise (rankRel f) := by
  induction l with
  | nil => simp [List.insertionSort]
  | cons a t ih =>
    rw [List.insertionSort]
    exact orderedInsert_rankRel f a _ (ih (List.pairwise_cons.mp hl).2)
      (fun b hb =>
        (List.pairwise_cons.mp hl).1 b ((List.mem_insertionSort _).mp hb))

/-- C2 (amended) — `recommend_by_text` returns the records at the positions
`rbtIndices`, and those positions are in strictly descending rank order:
an earlier item either scores strictly higher, or ties and has the LARGER
original index (reversing the stable ascending argsort flips tie order). -/
theorem rank_by_text_order {α : Type} [LinearOrder α]
    (transform : String → Nat → α) (q : String) (top_n : Nat) :
    recommend_by_text transform q top_n =
        (rbtIndices (transform q) top_n).map iloc ∧
      (rbtIndices (transform q) top_n).Pairwise
        (fun i j => transform q j < transform q i ∨
          (transform q j = transform q i ∧ j < i)) := by
  refine ⟨rfl, ?_⟩
  have h1 : (npArgsort (transform q) movies.length).Pairwise (rankRel (transform q)) :=
    insertionSort_rankRel _ _ (List.pairwise_lt_range _)
  have h2 : ((npArgsort (transform q) movies.length).reverse).Pairwise
      (fun i j => rankRel (transform q) j i) :=
    List.pairwise_reverse.mpr h1
  exact List.Pairwise.sublist (List.take_sublist _ _) h2

/-- C2 — counterexample to the stated tie-break: a query scoring zero
against every item (no shared vocabulary) yields positions 9,8,7,6,5 in
that order — all scores tie and the SMALLER index never comes first. -/
theorem rank_by_text_tiebreak_counterexample :
    rbtIndices (constTransform "zz") 5 = [9, 8, 7, 6, 5] ∧
      (recommend_by_text constTransform "zz" 5).map (fun m => m.id) =
        [9, 8, 7, 6, 5] ∧
      ¬ (rbtIndices (constTransform "zz") 5).Pairwise
          (fun i j => constTransform "zz" i > constTransform "zz" j ∨
            (constTransform "zz" i = constTransform "zz" j ∧ i < j)) := by
  refine ⟨by decide, by decide, by decide⟩

lemma sortedSimScores_drop_one_ne_idx {α : Type} [LinearOrder α]
    (sim : Nat → Nat → α) (idx : Nat) (hidx : idx < movies.length)
    (hmax : ∀ j, j < movies.length → j ≠ idx → sim idx j < sim idx idx) :
    ∀ p ∈ (sortedSimScores sim idx).drop 1, p.1 ≠ idx := by
  intro p hp hpidx
  cases hcons : sortedSimScores sim idx with
  | nil => rw [hcons] at hp; simp at hp
  | cons h t =>
    rw [hcons] at hp
    simp only [List.drop_succ_cons, List.drop_zero] at hp
    have hperm : (sortedSimScores sim idx).Perm (simRow sim idx) :=
      List.perm_insertionSort _ _
    have hsorted : List.Sorted descRel (sortedSimScores sim idx) :=
      List.sorted_insertionSort _ _
    have hself : ((idx, sim idx idx) : Nat × α) ∈ sortedSimScores sim idx := by
      refine hperm.mem_iff.mpr ?_
      simp only [simRow, List.mem_map, List.mem_range]
      exact ⟨idx, hidx, rfl⟩
    have hh : h ∈ sortedSimScores sim idx := by
      rw [hcons]; exact List.mem_cons_self _ _
    have hhrow := mem_simRow sim idx h (hperm.subset hh)
    have hfst : h.1 = idx := by
      by_contra hne
      have hlt : sim idx h.1 < sim idx idx := hmax h.1 hhrow.1 hne
      have hmem : ((idx, sim idx idx) : Nat × α) ∈ t := by
        rw [hcons] at hself
        rcases List.mem_cons.mp hself with heq | hmem
        · exact absurd (congrArg Prod.fst heq).symm hne
        · exact hmem
      have hrel : descRel h (idx, sim idx idx) := by
        rw [hcons] at hsorted
        exact (List.sorted_cons.mp hsorted).1 _ hmem
      have h2 : sim idx idx ≤ sim idx h.1 := hhrow.2 ▸ hrel
      exact absurd h2 (not_le.mpr hlt)
    have hnodup := nodup_fst_sortedSimScores sim idx
    rw [hcons, List.map_cons, List.nodup_cons] at hnodup
    exact hnodup.1 (hfst ▸ hpidx ▸ List.mem_map_of_mem Prod.fst hp)

lemma rbmIndices_ne_idx {α : Type} [LinearOrder α]
    (sim : Nat → Nat → α) (idx top_n : Nat) (hidx : idx < movies.length)
    (hmax : ∀ j, j < movies.length → j ≠ idx → sim idx j < sim idx idx) :
    ∀ i ∈ rbmIndices sim idx top_n, i ≠ idx ∧ i < movies.length := by
  intro i hi
  rcases List.mem_map.mp hi with ⟨p, hp, hpi⟩
  have hp1 : p ∈ (sortedSimScores sim idx).drop 1 :=
    (List.take_sublist _ _).subset hp
  have hp2 : p ∈ sortedSimScores sim idx :=
    (List.drop_sublist _ _).subset hp1
  have hrow := mem_simRow sim idx p ((List.perm_insertionSort _ _).subset hp2)
  exact hpi ▸ ⟨sortedSimScores_drop_one_ne_idx sim idx hidx hmax p hp1, hrow.1⟩

lemma movies_findIdx_get : ∀ k : Fin movies.length,
    movies.findIdx (fun m => m.id == (movies.get k).id) = k.val := by
  decide

lemma iloc_id : ∀ i, i < movies.length → (iloc i).id = Int.ofNat i := by
  decide

lemma movies_get_id : ∀ k : Fin movies.length,
    (movies.get k).id = Int.ofNat k.val := by
  decide

/-- C1 — `recommend_by_movie` on the identifier of a corpus item never
returns that item itself, provided its self-similarity is strictly maximal
in its row (as cosine self-similarity is for the program's pairwise
distinct, non-parallel TF-IDF rows): the item then occupies the first
entry of the descending-sorted row, which the slice `[1 : top_n + 1]`
excludes. -/
theorem rank_by_item_excludes_self {α : Type} [LinearOrder α]
    (sim : Nat → Nat → α) (x : Movie) (hx : x ∈ movies)
    (hmax : ∀ j, j < movies.length → j ≠ movieIdx x →
      sim (movieIdx x) j < sim (movieIdx x) (movieIdx x))
    (top_n : Nat) : x ∉ recommend_by_movie sim x.id top_n := by
  intro hmem
  have hany : movies.any (fun m => m.id == x.id) = true :=
    List.any_eq_true.mpr ⟨x, hx, by simp⟩
  rw [recommend_by_movie, if_pos hany] at hmem
  rcases List.mem_map.mp hmem with ⟨i, hi, hieq⟩
  obtain ⟨k, hk⟩ := List.mem_iff_get.mp hx
  have hidx : movieIdx x = k.val := by
    rw [movieIdx, ← hk]
    exact movies_findIdx_get k
  have hidxlt : movieIdx x < movies.length := by
    rw [hidx]; exact k.isLt
  have h2 := rbmIndices_ne_idx sim (movieIdx x) top_n hidxlt hmax i hi
  have hid_i : (iloc i).id = Int.ofNat i := iloc_id i h2.2
  have hid_x : x.id = Int.ofNat k.val := by
    rw [← hk]; exact movies_get_id k
  have : Int.ofNat i = Int.ofNat k.val := by
    rw [← hid_i, ← hid_x, hieq]
  exact h2.1 (by rw [hidx]; exact Int.ofNat.inj this)

/-- Witness for C1: the first corpus item under a strictly
diagonal-dominant score matrix. -/
theorem rank_by_item_excludes_self_witness :
    (iloc 0 ∈ movies ∧
      ∀ j, j < movies.length → j ≠ movieIdx (iloc 0) →
        diagSim (movieIdx (iloc 0)) j <
          diagSim (movieIdx (iloc 0)) (movieIdx (iloc 0))) ∧
    iloc 0 ∉ recommend_by_movie diagSim (iloc 0).id 5 :=
  ⟨⟨by decide, by decide⟩,
    rank_by_item_excludes_self diagSim (iloc 0) (by decide) (by decide) 5⟩

lemma rbm_length_known {α : Type} [LinearOrder α] (sim : Nat → Nat → α)
    (x : Movie) (hx : x ∈ movies) (top_n : Nat) :
    (recommend_by_movie sim x.id top_n).length = min top_n (movies.length - 1) := by
  have hany : movies.any (fun m => m.id == x.id) = true :=
    List.any_eq_true.mpr ⟨x, hx, by simp⟩
  rw [recommend_by_movie, if_pos hany, List.length_map, rbmIndices,
    List.length_map, List.length_take, List.length_drop,
    length_sortedSimScores]

/-- C6 — for a corpus item, `recommend_by_movie` returns exactly `top_n`
records when `top_n ≤ corpus size − 1`, and all `corpus size − 1`
remaining records (no error, no padding) when `top_n` exceeds that. -/
theorem rank_by_item_result_count {α : Type} [LinearOrder α]
    (sim : Nat → Nat → α) (x : Movie) (hx : x ∈ movies) (top_n : Nat) :
    (top_n ≤ movies.length - 1 →
      (recommend_by_movie sim x.id top_n).length = top_n) ∧
    (movies.length - 1 < top_n →
      (recommend_by_movie sim x.id top_n).length = movies.length - 1) := by
  constructor
  · intro h
    rw [rbm_length_known sim x hx top_n]
    exact Nat.min_eq_left h
  · intro h
    rw [rbm_length_known sim x hx top_n]
    exact Nat.min_eq_right (Nat.le_of_lt h)

/-- Witness for C6 at `top_n = 5` (within range) and `top_n = 12`
(exceeding the corpus size). -/
theorem rank_by_item_result_count_witness :
    (iloc 0 ∈ movies ∧ 5 ≤ movies.length - 1 ∧
      (recommend_by_movie constSim (iloc 0).id 5).length = 5) ∧
    (movies.length - 1 < 12 ∧
      (recommend_by_movie constSim (iloc 0).id 12).length = movies.length - 1) :=
  ⟨⟨by decide, by decide,
      (rank_by_item_result_count constSim (iloc 0) (by decide) 5).1 (by decide)⟩,
    ⟨by decide,
      (rank_by_item_result_count constSim (iloc 0) (by decide) 12).2 (by decide)⟩⟩

/-- C9 — the precomputed similarity matrix is square of side the item
count (so `itemCount²` entries), symmetric, and reflexive-maximal: each
diagonal entry dominates its whole row.  The TF-IDF rows of the ten items
are nonzero (every item text contains non-stop-word terms), which is the
stated hypothesis. -/
theorem similarity_matrix_shape_symm_reflexive_max (d : Nat)
    (vecs : Fin movies.length → EuclideanSpace ℝ (Fin d))
    (hnz : ∀ i, vecs i ≠ 0) :
    movies.length = 10 ∧
    (∀ i j, cosine_sim_matrix d vecs i j = cosine_sim_matrix d vecs j i) ∧
    (∀ i j, cosine_sim_matrix d vecs i j ≤ cosine_sim_matrix d vecs i i) := by
  refine ⟨rfl, ?_, ?_⟩
  · intro i j
    simp only [cosine_sim_matrix, Matrix.of_apply, cosineSim]
    rw [real_inner_comm, mul_comm]
  · intro i j
    have hni : ‖vecs i‖ ≠ 0 := norm_ne_zero_iff.mpr (hnz i)
    have hpos : (0 : ℝ) < ‖vecs i‖ * ‖vecs j‖ :=
      mul_pos (norm_pos_iff.mpr (hnz i)) (norm_pos_iff.mpr (hnz j))
    simp only [cosine_sim_matrix, Matrix.of_apply, cosineSim]
    rw [real_inner_self_eq_norm_mul_norm, div_self (mul_ne_zero hni hni)]
    exact (div_le_one hpos).mpr (real_inner_le_norm _ _)

/-- Witness for C9 with ten copies of a concrete nonzero feature vector. -/
theorem similarity_matrix_shape_symm_reflexive_max_witness :
    (∀ i : Fin movies.length,
      (fun _ : Fin movies.length => tfidfVec) i ≠ 0) ∧
    (movies.length = 10 ∧
      (∀ i j, cosine_sim_matrix 1 (fun _ => tfidfVec) i j =
        cosine_sim_matrix 1 (fun _ => tfidfVec) j i) ∧
      (∀ i j, cosine_sim_matrix 1 (fun _ => tfidfVec) i j ≤
        cosine_sim_matrix 1 (fun _ => tfidfVec) i i)) := by
  have h : ∀ i : Fin movies.length,
      (fun _ : Fin movies.length => tfidfVec) i ≠ 0 := by
    intro i h0
    have h1 : ‖tfidfVec‖ = 0 := by
      rw [show tfidfVec = (0 : EuclideanSpace ℝ (Fin 1)) from h0, norm_zero]
    rw [tfidfVec, EuclideanSpace.norm_single, norm_one] at h1
    exact one_ne_zero h1
  exact ⟨h, similarity_matrix_shape_symm_reflexive_max 1 (fun _ => tfidfVec) h⟩

end MovieRec
